import Mathlib

/-!
Verification development for the WSD protocol handler of sane-airscan
(src/airscan-wsd.c): a shallow embedding of the capability-decoding
pipeline (`wsd_devcaps_parse` and its sub-parsers), together with
theorems about the decoded device-capability model.

The XML reader, the sorted numeric array utility, the source
merge/clone routines and a few constants live outside the visible
slice of the repository; those are modelled from the spec and marked
as such in their doc comments.  Everything else is translated
directly from src/airscan-wsd.c.
-/

namespace SaneAirscan

set_option maxRecDepth 100000

/-- Errors are the descriptive message strings produced by the `ERROR(...)`
macro in the C code. -/
abbrev Err := String

/-! ## Constants (bit assignments of the external airscan.h) -/

/-- Modelled from the spec: color-mode bit index for BlackAndWhite1. -/
def OPT_COLORMODE_BW1 : Nat := 0

/-- Modelled from the spec: color-mode bit index for Grayscale8. -/
def OPT_COLORMODE_GRAYSCALE : Nat := 1

/-- Modelled from the spec: color-mode bit index for RGB24. -/
def OPT_COLORMODE_COLOR : Nat := 2

/-- Modelled from the spec: the globally supported color-mode set, a bitset
over {BlackAndWhite1, Grayscale8, RGB24} (external constant
`OPT_COLORMODES_SUPPORTED` of airscan.h). -/
def OPT_COLORMODES_SUPPORTED : Nat :=
  (1 <<< OPT_COLORMODE_BW1) ||| (1 <<< OPT_COLORMODE_GRAYSCALE) |||
    (1 <<< OPT_COLORMODE_COLOR)

/-- Modelled from the spec: flag bit recording a discrete resolution set
(external constant `DEVCAPS_SOURCE_RES_DISCRETE`). -/
def DEVCAPS_SOURCE_RES_DISCRETE : Nat := 1

/-- Modelled from the spec: format-support flag bit for JPEG
(external constant `DEVCAPS_SOURCE_FMT_JPEG`). -/
def DEVCAPS_SOURCE_FMT_JPEG : Nat := 2

/-- Modelled from the spec: format-support flag bit for PDF
(external constant `DEVCAPS_SOURCE_FMT_PDF`). -/
def DEVCAPS_SOURCE_FMT_PDF : Nat := 4

/-- Modelled from the spec: format-support flag bit for PNG
(external constant `DEVCAPS_SOURCE_FMT_PNG`). -/
def DEVCAPS_SOURCE_FMT_PNG : Nat := 8

/-! ## Device capability model -/

/-- Logical source kinds (enum `OPT_SOURCE` of airscan.h, in its
declaration order). -/
inductive OPT_SOURCE : Type where
  | PLATEN
  | ADF_SIMPLEX
  | ADF_DUPLEX
deriving DecidableEq

/-- One source-capability record (struct `devcaps_source`).  Resolution
values and color modes come from unsigned-integer / vocabulary parsing; the
pixel bounds are `SANE_Word` (machine int) fields that use -1 as the
"not yet defined" sentinel, so they are embedded as `Int`. -/
structure devcaps_source : Type where
  colormodes : Nat
  flags : Nat
  resolutions : List Nat
  min_wid_px : Int
  max_wid_px : Int
  min_hei_px : Int
  max_hei_px : Int
  win_x_min : Int
  win_x_max : Int
  win_y_min : Int
  win_y_max : Int
deriving DecidableEq

/-- Freshly allocated, zero-initialized source record
(`devcaps_source_new`, a `g_new0` allocation). -/
def devcaps_source_new : devcaps_source :=
  ⟨0, 0, [], 0, 0, 0, 0, 0, 0, 0, 0⟩

/-- The device capability model (struct `devcaps`), restricted to the fields
the WSD handler reads or writes: the model name, the three source slots and
the derived ordered list of available sources. -/
structure devcaps : Type where
  model : Option String
  src_platen : Option devcaps_source
  src_adf_simplex : Option devcaps_source
  src_adf_duplex : Option devcaps_source
  sane_sources : List OPT_SOURCE
deriving DecidableEq

/-- Slot accessor: `caps->src[src_id]`. -/
def devcaps.src (c : devcaps) : OPT_SOURCE → Option devcaps_source
  | .PLATEN => c.src_platen
  | .ADF_SIMPLEX => c.src_adf_simplex
  | .ADF_DUPLEX => c.src_adf_duplex

/-- Slot update: `caps->src[src_id] = s`. -/
def devcaps.setSrc (c : devcaps) (i : OPT_SOURCE) (s : devcaps_source) : devcaps :=
  match i with
  | .PLATEN => { c with src_platen := some s }
  | .ADF_SIMPLEX => { c with src_adf_simplex := some s }
  | .ADF_DUPLEX => { c with src_adf_duplex := some s }

/-- The empty capability model (all slots absent). -/
def devcaps_empty : devcaps := ⟨none, none, none, none, []⟩

/-- Modelled from the spec: the external `devcaps_reset` discards the
in-progress Device Capabilities entirely ("reset/discard the in-progress
Device Capabilities entirely (never expose partial state)"). -/
def devcaps_reset (_c : devcaps) : devcaps := devcaps_empty

/-! ## Sorted numeric array utility

The generic sorted dynamic array of `SANE_Word` (sane_word_array_*) is an
external collaborator of the visible slice; the spec fixes its contract:
the X and Y resolution lists are "each sorted ascending and de-duplicated,
then intersected". -/

/-- Modelled from the spec: ordered de-duplicating insertion used to build
the sorted resolution array. -/
def sw_insert (x : Nat) : List Nat → List Nat
  | [] => [x]
  | y :: ys =>
    if x < y then x :: y :: ys
    else if x = y then y :: ys
    else y :: sw_insert x ys

/-- Modelled from the spec: `sane_word_array_sort` sorts the array
ascending and de-duplicates it. -/
def sane_word_array_sort (l : List Nat) : List Nat :=
  l.foldr sw_insert []

/-- Modelled from the spec: `sane_word_array_intersect_sorted` intersects
two sorted arrays, keeping exactly the values present in both. -/
def sane_word_array_intersect_sorted (l1 l2 : List Nat) : List Nat :=
  l1.filter (fun a => l2.contains a)

/-! ## XML reader text accessors

The streaming XML reader is an external collaborator; its typed text
accessor is modelled from the spec ("current node's text value (with typed
accessors, e.g. unsigned integer)"). -/

/-- Modelled from the spec: `xml_rd_node_value_uint`, the typed accessor
that parses the current node's text as a decimal unsigned integer and
fails with a descriptive error otherwise. -/
def xml_rd_node_value_uint (s : String) : Except Err Nat :=
  if s ≠ "" ∧ s.data.all (fun c => c.isDigit) then
    .ok (s.data.foldl (fun a c => a * 10 + (c.toNat - 48)) 0)
  else
    .error ("invalid unsigned integer value: " ++ s)

/-! ## Source sub-parser (wsd_devcaps_parse_source)

Each sub-parser of airscan-wsd.c loops over its subtree with
`xml_rd_deep_next(xml, level)`, which visits every node of the subtree in
document order and stops once the subtree is exhausted; the node paths are
compared after stripping the entry node's path.  A subtree is therefore
embedded as the pre-order list of its strictly descendant nodes, each as a
(stripped path, text value) pair. -/

/-- Accumulator of `wsd_devcaps_parse_source`'s walk: the local variables
`x_res`, `y_res`, `min_wid`, `max_wid`, `min_hei`, `max_hei` and the
`colormodes` field of the record under construction.  The bounds use the
C initial value -1 as the "not defined" sentinel. -/
structure wsd_src_state : Type where
  x_res : List Nat
  y_res : List Nat
  min_wid : Int
  max_wid : Int
  min_hei : Int
  max_hei : Int
  colormodes : Nat
deriving DecidableEq

/-- Initial walk state of `wsd_devcaps_parse_source`. -/
def wsd_src_state_init : wsd_src_state := ⟨[], [], -1, -1, -1, -1, 0⟩

/-- The path classes distinguished by the if/else chain of
`wsd_devcaps_parse_source` (lines 195-223). -/
inductive wsd_src_key : Type where
  | xres
  | yres
  | minw
  | minh
  | maxw
  | maxh
  | color
  | other
deriving DecidableEq

/-- The path dispatch of `wsd_devcaps_parse_source`: each class accepts the
Platen-prefixed and the ADF-prefixed element name alike, in the order of
the C if/else chain. -/
def wsd_src_classify (p : String) : wsd_src_key :=
  if p = "/scan:PlatenResolutions/scan:Widths/scan:Width" ∨
      p = "/scan:ADFResolutions/scan:Widths/scan:Width" then .xres
  else if p = "/scan:PlatenResolutions/scan:Heights/scan:Height" ∨
      p = "/scan:ADFResolutions/scan:Heights/scan:Height" then .yres
  else if p = "/scan:PlatenMinimumSize/scan:Width" ∨
      p = "/scan:ADFMinimumSize/scan:Width" then .minw
  else if p = "/scan:PlatenMinimumSize/scan:Height" ∨
      p = "/scan:ADFMinimumSize/scan:Height" then .minh
  else if p = "/scan:PlatenMaximumSize/scan:Width" ∨
      p = "/scan:ADFMaximumSize/scan:Width" then .maxw
  else if p = "/scan:PlatenMaximumSize/scan:Height" ∨
      p = "/scan:ADFMaximumSize/scan:Height" then .maxh
  else if p = "/scan:PlatenColor/scan:ColorEntry" ∨
      p = "/scan:ADFColor/scan:ColorEntry" then .color
  else .other

/-- `wsd_devcaps_parse_size`: parse a bound leaf; only the first parsed
occurrence is stored (the C code keeps `*out` once it is non-negative),
but a parse error is returned regardless. -/
def wsd_devcaps_parse_size (out : Int) (v : String) : Option Err × Int :=
  match xml_rd_node_value_uint v with
  | .error e => (some e, out)
  | .ok n => (none, if out < 0 then (n : Int) else out)

/-- `wsd_devcaps_parse_res`: parse a resolution leaf and append it to the
given resolution array. -/
def wsd_devcaps_parse_res (res : List Nat) (v : String) :
    Option Err × List Nat :=
  match xml_rd_node_value_uint v with
  | .error e => (some e, res)
  | .ok n => (none, res ++ [n])

/-- The color-entry vocabulary of `wsd_devcaps_parse_source`
(lines 215-222): unrecognized tokens are ignored. -/
def wsd_color_entry (cm : Nat) (v : String) : Nat :=
  if v = "BlackAndWhite1" then cm ||| (1 <<< OPT_COLORMODE_BW1)
  else if v = "Grayscale8" then cm ||| (1 <<< OPT_COLORMODE_GRAYSCALE)
  else if v = "RGB24" then cm ||| (1 <<< OPT_COLORMODE_COLOR)
  else cm

/-- One iteration of the `wsd_devcaps_parse_source` walk on the node with
stripped path `p` and text value `v`. -/
def wsd_src_step (st : wsd_src_state) (p v : String) :
    Option Err × wsd_src_state :=
  match wsd_src_classify p with
  | .xres =>
    match wsd_devcaps_parse_res st.x_res v with
    | (e, r) => (e, { st with x_res := r })
  | .yres =>
    match wsd_devcaps_parse_res st.y_res v with
    | (e, r) => (e, { st with y_res := r })
  | .minw =>
    match wsd_devcaps_parse_size st.min_wid v with
    | (e, o) => (e, { st with min_wid := o })
  | .minh =>
    match wsd_devcaps_parse_size st.min_hei v with
    | (e, o) => (e, { st with min_hei := o })
  | .maxw =>
    match wsd_devcaps_parse_size st.max_wid v with
    | (e, o) => (e, { st with max_wid := o })
  | .maxh =>
    match wsd_devcaps_parse_size st.max_hei v with
    | (e, o) => (e, { st with max_hei := o })
  | .color => (none, { st with colormodes := wsd_color_entry st.colormodes v })
  | .other => (none, st)

/-- The subtree walk of `wsd_devcaps_parse_source` (lines 191-230): the
first error stops the scan immediately. -/
def wsd_src_walk (st : wsd_src_state) :
    List (String × String) → Option Err × wsd_src_state
  | [] => (none, st)
  | n :: rest =>
    match wsd_src_step st n.1 n.2 with
    | (some e, st') => (some e, st')
    | (none, st') => wsd_src_walk st' rest

/-- Resolution reconciliation of `wsd_devcaps_parse_source` (lines
232-237): sort both axis lists and keep their intersection. -/
def wsd_src_resolutions (st : wsd_src_state) : List Nat :=
  sane_word_array_intersect_sorted (sane_word_array_sort st.x_res)
    (sane_word_array_sort st.y_res)

/-- The validation chain of `wsd_devcaps_parse_source` (lines 239-274):
the first violated invariant yields its descriptive error. -/
def wsd_src_check (st : wsd_src_state) : Option Err :=
  if wsd_src_resolutions st = [] then some "no resolutions defined"
  else if st.colormodes &&& OPT_COLORMODES_SUPPORTED = 0 then
    some "no color modes defined"
  else if st.min_wid < 0 then some "minimum width not defined"
  else if st.min_hei < 0 then some "minimum height not defined"
  else if st.max_wid < 0 then some "maximum width not defined"
  else if st.max_hei < 0 then some "maximum height not defined"
  else if st.min_wid > st.max_wid then some "minimum width > maximum width"
  else if st.min_hei > st.max_hei then some "minimum height > maximum height"
  else none

/-- The source record assembled by `wsd_devcaps_parse_source`: masked
color modes, reconciled resolutions with the discrete-resolution flag,
and the four pixel bounds (lines 237-280).  The window ranges stay at
their allocation value. -/
def wsd_src_record (st : wsd_src_state) : devcaps_source :=
  { colormodes := st.colormodes &&& OPT_COLORMODES_SUPPORTED
    flags := if wsd_src_resolutions st = [] then 0
      else DEVCAPS_SOURCE_RES_DISCRETE
    resolutions := wsd_src_resolutions st
    min_wid_px := st.min_wid
    max_wid_px := st.max_wid
    min_hei_px := st.min_hei
    max_hei_px := st.max_hei
    win_x_min := 0
    win_x_max := 0
    win_y_min := 0
    win_y_max := 0 }

/-- `wsd_devcaps_parse_source` (lines 178-296): walk the source subtree,
reconcile resolutions, validate, and commit the record into the requested
slot only when the scan succeeded and the slot is still empty (first
valid parse wins; an already-populated slot is preserved and the new
record discarded). -/
def wsd_devcaps_parse_source (caps : devcaps)
    (nodes : List (String × String)) (src_id : OPT_SOURCE) :
    Option Err × devcaps :=
  match wsd_src_walk wsd_src_state_init nodes with
  | (some e, _) => (some e, caps)
  | (none, st) =>
    match wsd_src_check st with
    | some e => (some e, caps)
    | none =>
      (none, if caps.src src_id = none then
        caps.setSrc src_id (wsd_src_record st) else caps)

/-! ## Description and format sub-parsers -/

/-- `wsd_devcaps_parse_description` (lines 91-112): record the device
model name from the first matching leaf; never fails. -/
def wsd_devcaps_parse_description (caps : devcaps)
    (nodes : List (String × String)) : devcaps :=
  nodes.foldl
    (fun c n =>
      if n.1 = "/scan:ScannerName" then
        if c.model = none then { c with model := some n.2 } else c
      else c)
    caps

/-- `wsd_devcaps_parse_formats` (lines 116-144): accumulate the
format-support bitset from the controlled vocabulary; unrecognized format
tokens are silently ignored and the parser never fails. -/
def wsd_devcaps_parse_formats (nodes : List (String × String))
    (flags : Nat) : Nat :=
  nodes.foldl
    (fun fl n =>
      if n.1 = "/scan:FormatValue" then
        if n.2 = "jfif" then fl ||| DEVCAPS_SOURCE_FMT_JPEG
        else if n.2 = "pdf-a" then fl ||| DEVCAPS_SOURCE_FMT_PDF
        else if n.2 = "png" then fl ||| DEVCAPS_SOURCE_FMT_PNG
        else fl
      else fl)
    flags

/-! ## XML tree -/

mutual
/-- A namespace-normalized XML element: normalized prefixed name, text
value, child elements. -/
inductive XNode : Type where
  | mk : String → String → XForest → XNode
/-- A sequence of sibling XML elements. -/
inductive XForest : Type where
  | nil : XForest
  | cons : XNode → XForest → XForest
end

/-- Build an element sequence from a list of elements. -/
def XForest.ofList : List XNode → XForest
  | [] => .nil
  | n :: rest => .cons n (XForest.ofList rest)

/-- Pre-order listing of a forest as (slash path, text value) pairs,
each path extending the given entry path: the node sequence a sub-parser
sees when it walks a subtree with `xml_rd_deep_next`. -/
def xnode_list (pfx : String) : XForest → List (String × String)
  | .nil => []
  | .cons (.mk nm v ch) rest =>
    (pfx ++ "/" ++ nm, v) ::
      (xnode_list (pfx ++ "/" ++ nm) ch ++ xnode_list pfx rest)

/-! ## Configuration sub-parser -/

/-- The local flags of `wsd_devcaps_parse_configuration`: whether an
ADF-front subtree was seen (`adf`), the duplex-capability flag, and the
accumulated format bitset. -/
structure wsd_conf_state : Type where
  adf : Bool
  duplex : Bool
  formats : Nat
deriving DecidableEq

/-- Initial state of the configuration walk. -/
def wsd_conf_state_init : wsd_conf_state := ⟨false, false, 0⟩

/-- The configuration walk (lines 311-335): dispatch each node by its
stripped path.  A sub-parser consumes its whole subtree, so the walk
continues with the node's siblings afterwards; every other node's subtree
is traversed by `xml_rd_deep_next` and therefore visited by this same
loop.  The first error aborts the walk. -/
def wsd_conf_walk (caps : devcaps) (st : wsd_conf_state) (pfx : String) :
    XForest → Option Err × devcaps × wsd_conf_state
  | .nil => (none, caps, st)
  | .cons (.mk nm v ch) rest =>
    let p := pfx ++ "/" ++ nm
    if p = "/scan:DeviceSettings/scan:FormatsSupported" then
      let fl := wsd_devcaps_parse_formats (xnode_list "" ch) st.formats
      wsd_conf_walk caps { st with formats := fl } pfx rest
    else if p = "/scan:Platen" then
      match wsd_devcaps_parse_source caps (xnode_list "" ch)
          OPT_SOURCE.PLATEN with
      | (some e, c) => (some e, c, st)
      | (none, c) => wsd_conf_walk c st pfx rest
    else if p = "/scan:ADF/scan:ADFFront" then
      match wsd_devcaps_parse_source caps (xnode_list "" ch)
          OPT_SOURCE.ADF_SIMPLEX with
      | (some e, c) => (some e, c, { st with adf := true })
      | (none, c) => wsd_conf_walk c { st with adf := true } pfx rest
    else if p = "/scan:ADF/scan:ADFBack" then
      match wsd_devcaps_parse_source caps (xnode_list "" ch)
          OPT_SOURCE.ADF_DUPLEX with
      | (some e, c) => (some e, c, st)
      | (none, c) => wsd_conf_walk c st pfx rest
    else if p = "/scan:ADF/scan:ADFSupportsDuplex" then
      let st' := { st with duplex := v = "1" || v = "true" }
      match wsd_conf_walk caps st' p ch with
      | (some e, c, s) => (some e, c, s)
      | (none, c, s) => wsd_conf_walk c s pfx rest
    else
      match wsd_conf_walk caps st p ch with
      | (some e, c, s) => (some e, c, s)
      | (none, c, s) => wsd_conf_walk c s pfx rest

/-- Modelled from the spec: the external `math_px2mm_res` converts a pixel
count at the given resolution into the physical unit (thousandths of an
inch-equivalent scale, 16.16 fixed point; millimeters = px * 25.4 / res). -/
def math_px2mm_res (px res : Int) : Int :=
  px * 254 * 65536 / (res * 10)

/-- The per-source adjustment of `wsd_devcaps_parse_configuration`
(lines 341-346): merge in the accumulated format bitset, zero the window
minima and derive the window maxima from the pixel maxima at the fixed
unit scale 1000. -/
def devcaps_source_adjust (formats : Nat) (s : devcaps_source) :
    devcaps_source :=
  { s with
    flags := s.flags ||| formats
    win_x_min := 0
    win_y_min := 0
    win_x_max := math_px2mm_res s.max_wid_px 1000
    win_y_max := math_px2mm_res s.max_hei_px 1000 }

/-- The source-adjustment loop over all slots (lines 338-347). -/
def wsd_adjust_sources (caps : devcaps) (formats : Nat) : devcaps :=
  { caps with
    src_platen := caps.src_platen.map (devcaps_source_adjust formats)
    src_adf_simplex := caps.src_adf_simplex.map (devcaps_source_adjust formats)
    src_adf_duplex := caps.src_adf_duplex.map (devcaps_source_adjust formats) }

/-- `devcaps_source_clone`: a value copy of a source record (external
routine; a clone carries exactly the same field values). -/
def devcaps_source_clone (s : devcaps_source) : devcaps_source := s

/-- Modelled from the spec: the external `devcaps_source_merge` combines
two source records so that the result accepts everything either input
accepts — union of resolution sets, union of color modes, union of
format flags, widened min/max bounds. -/
def devcaps_source_merge (a b : devcaps_source) : devcaps_source :=
  { colormodes := a.colormodes ||| b.colormodes
    flags := a.flags ||| b.flags
    resolutions := sane_word_array_sort (a.resolutions ++ b.resolutions)
    min_wid_px := min a.min_wid_px b.min_wid_px
    max_wid_px := max a.max_wid_px b.max_wid_px
    min_hei_px := min a.min_hei_px b.min_hei_px
    max_hei_px := max a.max_hei_px b.max_hei_px
    win_x_min := min a.win_x_min b.win_x_min
    win_x_max := max a.win_x_max b.win_x_max
    win_y_min := min a.win_y_min b.win_y_min
    win_y_max := max a.win_y_max b.win_y_max }

/-- The duplex derivation step (lines 361-376): when an ADF-front subtree
was seen and the duplex flag is set, the ADF-duplex slot becomes a clone
of ADF-front if it is empty, and the merge of ADF-front and ADF-back
otherwise; in every other case the ADF-duplex slot is discarded.  (In the
merge case the C code asserts that the ADF-front slot is populated; with
an empty front slot the model discards the back record.) -/
def wsd_adjust_duplex (adf duplex : Bool) (caps : devcaps) : devcaps :=
  if adf && duplex then
    match caps.src_adf_duplex with
    | none =>
      { caps with
        src_adf_duplex := caps.src_adf_simplex.map devcaps_source_clone }
    | some b =>
      { caps with
        src_adf_duplex :=
          caps.src_adf_simplex.map (fun f => devcaps_source_merge f b) }
  else
    { caps with src_adf_duplex := none }

/-- The ordered list of populated source slots, in `OPT_SOURCE` order
(the loop of lines 383-389). -/
def devcaps.available (c : devcaps) : List OPT_SOURCE :=
  (if c.src_platen.isSome then [OPT_SOURCE.PLATEN] else []) ++
    (if c.src_adf_simplex.isSome then [OPT_SOURCE.ADF_SIMPLEX] else []) ++
    (if c.src_adf_duplex.isSome then [OPT_SOURCE.ADF_DUPLEX] else [])

/-- `wsd_devcaps_parse_configuration` (lines 300-396): walk the
configuration subtree, adjust every populated source, derive the duplex
source, rebuild the available-source list and fail if no source was
detected. -/
def wsd_devcaps_parse_configuration (caps : devcaps) (ns : XForest) :
    Option Err × devcaps :=
  match wsd_conf_walk caps wsd_conf_state_init "" ns with
  | (some e, c, _) => (some e, c)
  | (none, c, st) =>
    let c1 := wsd_adjust_sources c st.formats
    let c2 := wsd_adjust_duplex st.adf st.duplex c1
    let c3 := { c2 with sane_sources := c2.available }
    (if c2.available = [] then
      some "neither platen nor ADF sources detected"
    else none, c3)

/-! ## Top-level pipeline -/

/-- The normalized path of the scanner-description subtree. -/
def wsd_path_description : String :=
  "s:Envelope/s:Body/scan:GetScannerElementsResponse/scan:ScannerElements/scan:ElementData/scan:ScannerDescription"

/-- The normalized path of the scanner-configuration subtree. -/
def wsd_path_configuration : String :=
  "s:Envelope/s:Body/scan:GetScannerElementsResponse/scan:ScannerElements/scan:ElementData/scan:ScannerConfiguration"

/-- The top-level walk of `wsd_devcaps_parse` (lines 412-431): dispatch by
absolute normalized path to the description and configuration sub-parsers;
everything else is traversed and ignored. -/
def wsd_top_walk (caps : devcaps) (pfx : String) :
    XForest → Option Err × devcaps
  | .nil => (none, caps)
  | .cons (.mk nm _v ch) rest =>
    let p := if pfx = "" then nm else pfx ++ "/" ++ nm
    if p = wsd_path_description then
      wsd_top_walk (wsd_devcaps_parse_description caps (xnode_list "" ch))
        pfx rest
    else if p = wsd_path_configuration then
      match wsd_devcaps_parse_configuration caps ch with
      | (some e, c) => (some e, c)
      | (none, c) => wsd_top_walk c pfx rest
    else
      match wsd_top_walk caps p ch with
      | (some e, c) => (some e, c)
      | (none, c) => wsd_top_walk c pfx rest

/-- `wsd_devcaps_parse` (lines 400-442): the input is the result of the
external XML reader (`xml_rd_begin`), either a lexical/structural failure
or the normalized document tree.  Any failure resets the in-progress
capability model before returning. -/
def wsd_devcaps_parse (caps : devcaps) (input : Except Err XForest) :
    Option Err × devcaps :=
  match input with
  | .error e => (some e, devcaps_reset caps)
  | .ok ns =>
    match wsd_top_walk caps "" ns with
    | (some e, c) => (some e, devcaps_reset c)
    | (none, c) => (none, c)

/-! ## Namespace normalization layer

`wsd_devcaps_parse` consumes an already namespace-normalized tree: the
external XML reader rewrites namespace URIs to the short prefixes of the
`wsd_ns_rd` table (src lines 20-26) before any path is built.  The raw
layer below models that rewriting from the spec ("rewriting
vendor-specific XML namespace URIs to a caller-chosen canonical prefix
before path matching"). -/

mutual
/-- A raw XML element before namespace normalization: namespace URI,
local name, text value, children. -/
inductive RNode : Type where
  | mk : String → String → String → RForest → RNode
/-- A sequence of sibling raw XML elements. -/
inductive RForest : Type where
  | nil : RForest
  | cons : RNode → RForest → RForest
end

/-- All suffixes of a character sequence, longest first. -/
def wsd_uri_suffixes : List Char → List (List Char)
  | [] => [[]]
  | c :: s => (c :: s) :: wsd_uri_suffixes s

/-- Modelled from the spec: wildcard matching of a namespace-URI table
pattern (a `*` matches any character sequence) against a concrete URI. -/
def wsd_uri_wild_match : List Char → List Char → Bool
  | [], s => s.isEmpty
  | '*' :: ps, s => (wsd_uri_suffixes s).any (fun t => wsd_uri_wild_match ps t)
  | p :: ps, s =>
    match s with
    | [] => false
    | c :: s' => p = c && wsd_uri_wild_match ps s'

/-- The XML-reader namespace translation table `wsd_ns_rd` (lines 20-26):
both SOAP envelope URIs normalize to the prefix "s". -/
def wsd_ns_rd : List (String × String) :=
  [("s", "http*://schemas.xmlsoap.org/soap/envelope"),
   ("s", "http*://www.w3.org/2003/05/soap-envelope"),
   ("d", "http*://schemas.xmlsoap.org/ws/2005/04/discovery"),
   ("a", "http*://schemas.xmlsoap.org/ws/2004/08/addressing")]

/-- Modelled from the spec: the reader resolves a namespace URI to the
first matching table prefix; a URI outside the table keeps its own
document spelling. -/
def xml_ns_lookup (uri : String) : String :=
  match wsd_ns_rd.find? (fun e => wsd_uri_wild_match e.2.data uri.data) with
  | some e => e.1
  | none => uri

/-- Modelled from the spec: namespace normalization of a raw tree — every
element name becomes the normalized prefixed name. -/
def xml_rd_normalize : RForest → XForest
  | .nil => .nil
  | .cons (.mk u l v ch) rest =>
    .cons (.mk (xml_ns_lookup u ++ ":" ++ l) v (xml_rd_normalize ch))
      (xml_rd_normalize rest)

/-- Capability decoding from a raw (not yet normalized) tree. -/
def wsd_devcaps_parse_raw (caps : devcaps) (ns : RForest) :
    Option Err × devcaps :=
  wsd_devcaps_parse caps (.ok (xml_rd_normalize ns))

/-- The SOAP 1.1 envelope namespace URI. -/
def wsd_soap11_uri : String := "http://schemas.xmlsoap.org/soap/envelope"

/-- The SOAP 1.2 envelope namespace URI. -/
def wsd_soap12_uri : String := "http://www.w3.org/2003/05/soap-envelope"

/-- Exchange the SOAP 1.1 and SOAP 1.2 envelope URIs. -/
def wsd_soap_swap_uri (u : String) : String :=
  if u = wsd_soap11_uri then wsd_soap12_uri
  else if u = wsd_soap12_uri then wsd_soap11_uri
  else u

/-- A document identical except that every SOAP 1.1 envelope URI is
replaced by the SOAP 1.2 one and vice versa. -/
def wsd_soap_swap : RForest → RForest
  | .nil => .nil
  | .cons (.mk u l v ch) rest =>
    .cons (.mk (wsd_soap_swap_uri u) l v (wsd_soap_swap ch))
      (wsd_soap_swap rest)

/-! ## Source invariants and further definitions used by the theorems -/

/-- The four Source invariants of the spec: a non-empty resolution set, a
non-empty color-mode set after intersection with the globally supported
set, all four pixel bounds defined (non-negative), and minima not above
maxima. -/
def devcaps_source_ok (s : devcaps_source) : Prop :=
  s.resolutions ≠ [] ∧
  s.colormodes &&& OPT_COLORMODES_SUPPORTED ≠ 0 ∧
  0 ≤ s.min_wid_px ∧ 0 ≤ s.min_hei_px ∧
  0 ≤ s.max_wid_px ∧ 0 ≤ s.max_hei_px ∧
  s.min_wid_px ≤ s.max_wid_px ∧ s.min_hei_px ≤ s.max_hei_px

instance devcaps_source_ok_decidable (s : devcaps_source) :
    Decidable (devcaps_source_ok s) := by
  unfold devcaps_source_ok
  infer_instance

/-- Every populated source slot satisfies the Source invariants. -/
def devcaps_ok (c : devcaps) : Prop :=
  ∀ (s : OPT_SOURCE) (rec : devcaps_source),
    c.src s = some rec → devcaps_source_ok rec

/-- The walk-state field written by each of the four bound classes. -/
def wsd_src_bound (st : wsd_src_state) : wsd_src_key → Int
  | .minw => st.min_wid
  | .minh => st.min_hei
  | .maxw => st.max_wid
  | .maxh => st.max_hei
  | _ => 0

/-- Whether a path class is one of the four size bounds. -/
def wsd_bound_key : wsd_src_key → Bool
  | .minw => true
  | .minh => true
  | .maxw => true
  | .maxh => true
  | _ => false

/-- The text values of all leaves of a given path class, in document
order. -/
def wsd_bound_vals (k : wsd_src_key) (nodes : List (String × String)) :
    List String :=
  nodes.filterMap
    (fun n => if wsd_src_classify n.1 = k then some n.2 else none)

/-- Exchange the Platen-form and the ADF-form of each element path
recognized by the source sub-parser; any other path is kept. -/
def wsd_path_swap (p : String) : String :=
  if p = "/scan:PlatenResolutions/scan:Widths/scan:Width" then
    "/scan:ADFResolutions/scan:Widths/scan:Width"
  else if p = "/scan:ADFResolutions/scan:Widths/scan:Width" then
    "/scan:PlatenResolutions/scan:Widths/scan:Width"
  else if p = "/scan:PlatenResolutions/scan:Heights/scan:Height" then
    "/scan:ADFResolutions/scan:Heights/scan:Height"
  else if p = "/scan:ADFResolutions/scan:Heights/scan:Height" then
    "/scan:PlatenResolutions/scan:Heights/scan:Height"
  else if p = "/scan:PlatenMinimumSize/scan:Width" then
    "/scan:ADFMinimumSize/scan:Width"
  else if p = "/scan:ADFMinimumSize/scan:Width" then
    "/scan:PlatenMinimumSize/scan:Width"
  else if p = "/scan:PlatenMinimumSize/scan:Height" then
    "/scan:ADFMinimumSize/scan:Height"
  else if p = "/scan:ADFMinimumSize/scan:Height" then
    "/scan:PlatenMinimumSize/scan:Height"
  else if p = "/scan:PlatenMaximumSize/scan:Width" then
    "/scan:ADFMaximumSize/scan:Width"
  else if p = "/scan:ADFMaximumSize/scan:Width" then
    "/scan:PlatenMaximumSize/scan:Width"
  else if p = "/scan:PlatenMaximumSize/scan:Height" then
    "/scan:ADFMaximumSize/scan:Height"
  else if p = "/scan:ADFMaximumSize/scan:Height" then
    "/scan:PlatenMaximumSize/scan:Height"
  else if p = "/scan:PlatenColor/scan:ColorEntry" then
    "/scan:ADFColor/scan:ColorEntry"
  else if p = "/scan:ADFColor/scan:ColorEntry" then
    "/scan:PlatenColor/scan:ColorEntry"
  else p

/-- Swap Platen-form and ADF-form paths throughout a subtree listing. -/
def wsd_swap_nodes (nodes : List (String × String)) :
    List (String × String) :=
  nodes.map (fun n => (wsd_path_swap n.1, n.2))

/-! ## Concrete documents and values used as witnesses -/

/-- Element with children and empty text. -/
def xe (n : String) (ch : List XNode) : XNode := .mk n "" (XForest.ofList ch)

/-- Leaf element with text. -/
def xt (n v : String) : XNode := .mk n v XForest.nil

/-- Wrap element-data content in the SOAP envelope skeleton of the WSD
capability response. -/
def wsd_envelope (content : List XNode) : XForest :=
  XForest.ofList
    [xe "s:Envelope"
      [xe "s:Body"
        [xe "scan:GetScannerElementsResponse"
          [xe "scan:ScannerElements" [xe "scan:ElementData" content]]]]]

/-- A valid platen source subtree. -/
def wsd_platen_node : XNode :=
  xe "scan:Platen"
    [xe "scan:PlatenResolutions"
       [xe "scan:Widths" [xt "scan:Width" "300", xt "scan:Width" "600"],
        xe "scan:Heights" [xt "scan:Height" "300", xt "scan:Height" "600"]],
     xe "scan:PlatenMinimumSize" [xt "scan:Width" "0", xt "scan:Height" "0"],
     xe "scan:PlatenMaximumSize"
       [xt "scan:Width" "2550", xt "scan:Height" "3507"],
     xe "scan:PlatenColor"
       [xt "scan:ColorEntry" "Grayscale8", xt "scan:ColorEntry" "RGB24"]]

/-- A valid ADF-back source subtree. -/
def wsd_adfback_node : XNode :=
  xe "scan:ADFBack"
    [xe "scan:ADFResolutions"
       [xe "scan:Widths" [xt "scan:Width" "200"],
        xe "scan:Heights" [xt "scan:Height" "200"]],
     xe "scan:ADFMinimumSize" [xt "scan:Width" "16", xt "scan:Height" "16"],
     xe "scan:ADFMaximumSize"
       [xt "scan:Width" "2000", xt "scan:Height" "3000"],
     xe "scan:ADFColor" [xt "scan:ColorEntry" "RGB24"]]

/-- A well-formed capability document with a description and one valid
platen source. -/
def wsd_doc_valid : XForest :=
  wsd_envelope
    [xe "scan:ScannerDescription" [xt "scan:ScannerName" "Test Scanner"],
     xe "scan:ScannerConfiguration"
       [xe "scan:DeviceSettings"
          [xe "scan:FormatsSupported"
             [xt "scan:FormatValue" "jfif", xt "scan:FormatValue" "png"]],
        wsd_platen_node]]

/-- Configuration content with a valid platen, a duplex flag set to true
and an ADF-back subtree, but no ADF-front subtree. -/
def wsd_conf_c3_list : List XNode :=
  [wsd_platen_node,
   xe "scan:ADF" [xt "scan:ADFSupportsDuplex" "true", wsd_adfback_node]]

/-- A well-formed capability document whose configuration is
`wsd_conf_c3_list`. -/
def wsd_doc_c3 : XForest :=
  wsd_envelope [xe "scan:ScannerConfiguration" wsd_conf_c3_list]

/-- Configuration content with one valid platen whose minimum width is
100 pixels. -/
def wsd_conf_c8_list : List XNode :=
  [xe "scan:Platen"
    [xe "scan:PlatenResolutions"
       [xe "scan:Widths" [xt "scan:Width" "300"],
        xe "scan:Heights" [xt "scan:Height" "300"]],
     xe "scan:PlatenMinimumSize"
       [xt "scan:Width" "100", xt "scan:Height" "100"],
     xe "scan:PlatenMaximumSize"
       [xt "scan:Width" "2550", xt "scan:Height" "3507"],
     xe "scan:PlatenColor" [xt "scan:ColorEntry" "RGB24"]]]

/-- Resolution leaves with X values {300, 600, 1200} and Y values
{600, 1200}. -/
def wsd_c4_nodes : List (String × String) :=
  [("/scan:PlatenResolutions/scan:Widths/scan:Width", "300"),
   ("/scan:PlatenResolutions/scan:Widths/scan:Width", "600"),
   ("/scan:PlatenResolutions/scan:Widths/scan:Width", "1200"),
   ("/scan:PlatenResolutions/scan:Heights/scan:Height", "600"),
   ("/scan:PlatenResolutions/scan:Heights/scan:Height", "1200")]

/-- A source subtree whose X and Y resolution lists are disjoint. -/
def wsd_c5_nodes : List (String × String) :=
  [("/scan:ADFResolutions/scan:Widths/scan:Width", "300"),
   ("/scan:ADFResolutions/scan:Heights/scan:Height", "600")]

/-- A source subtree repeating the minimum-width bound with two different
parseable values. -/
def wsd_c6_nodes : List (String × String) :=
  [("/scan:PlatenMinimumSize/scan:Width", "100"),
   ("/scan:PlatenMinimumSize/scan:Width", "200")]

/-- A source subtree recording a valid minimum width first. -/
def wsd_c9_pre : List (String × String) :=
  [("/scan:PlatenMinimumSize/scan:Width", "100")]

/-- The same subtree followed by a second minimum-width occurrence whose
value does not parse as an unsigned integer. -/
def wsd_c9_nodes : List (String × String) :=
  wsd_c9_pre ++ [("/scan:PlatenMinimumSize/scan:Width", "12x3")]

/-- Capabilities with only the ADF-front slot populated. -/
def wsd_caps_front_only : devcaps :=
  { devcaps_empty with src_adf_simplex := some devcaps_source_new }

/-- A sample source record with pixel maxima 2550 and 3507. -/
def wsd_c8_sample_rec : devcaps_source :=
  { devcaps_source_new with max_wid_px := 2550, max_hei_px := 3507 }

/-- Capabilities with the sample record in the platen slot. -/
def wsd_caps_platen_sample : devcaps :=
  { devcaps_empty with src_platen := some wsd_c8_sample_rec }

/-- The sample record after the source adjustment with an empty format
set. -/
def wsd_c8w_rec : devcaps_source := devcaps_source_adjust 0 wsd_c8_sample_rec

/-! ## Theorems -/

theorem mem_sw_insert (a x : Nat) (l : List Nat) :
    a ∈ sw_insert x l ↔ a = x ∨ a ∈ l := by
  induction l with
  | nil => simp [sw_insert]
  | cons y ys ih =>
    simp only [sw_insert]
    split_ifs with h1 h2
    · simp
    · subst h2
      simp only [List.mem_cons]
      tauto
    · simp only [List.mem_cons, ih]
      tauto

theorem sorted_sw_insert (x : Nat) (l : List Nat)
    (h : l.Sorted (· < ·)) : (sw_insert x l).Sorted (· < ·) := by
  induction l with
  | nil => simp [sw_insert]
  | cons y ys ih =>
    rw [List.sorted_cons] at h
    obtain ⟨hy, hys⟩ := h
    simp only [sw_insert]
    split_ifs with h1 h2
    · rw [List.sorted_cons]
      refine ⟨?_, by rw [List.sorted_cons]; exact ⟨hy, hys⟩⟩
      intro b hb
      rcases List.mem_cons.mp hb with rfl | hb
      · exact h1
      · exact Nat.lt_trans h1 (hy b hb)
    · rw [List.sorted_cons]
      exact ⟨hy, hys⟩
    · rw [List.sorted_cons]
      refine ⟨?_, ih hys⟩
      intro b hb
      rcases (mem_sw_insert b x ys).mp hb with rfl | hb
      · omega
      · exact hy b hb

theorem mem_sane_word_array_sort (a : Nat) (l : List Nat) :
    a ∈ sane_word_array_sort l ↔ a ∈ l := by
  induction l with
  | nil => simp [sane_word_array_sort]
  | cons x xs ih =>
    simp only [sane_word_array_sort, List.foldr_cons] at *
    rw [mem_sw_insert, ih, List.mem_cons]

theorem sorted_sane_word_array_sort (l : List Nat) :
    (sane_word_array_sort l).Sorted (· < ·) := by
  induction l with
  | nil => simp [sane_word_array_sort]
  | cons x xs ih =>
    simp only [sane_word_array_sort, List.foldr_cons] at *
    exact sorted_sw_insert x _ ih

theorem mem_sane_word_array_intersect_sorted (a : Nat) (l1 l2 : List Nat) :
    a ∈ sane_word_array_intersect_sorted l1 l2 ↔ a ∈ l1 ∧ a ∈ l2 := by
  simp [sane_word_array_intersect_sorted, List.mem_filter]

theorem sorted_sane_word_array_intersect_sorted (l1 l2 : List Nat)
    (h : l1.Sorted (· < ·)) :
    (sane_word_array_intersect_sorted l1 l2).Sorted (· < ·) :=
  h.filter _

theorem nodup_of_sorted_lt {l : List Nat} (h : l.Sorted (· < ·)) :
    l.Nodup := h.nodup


theorem xml_ns_lookup_soap11 : xml_ns_lookup wsd_soap11_uri = "s" := by
  decide

theorem xml_ns_lookup_soap12 : xml_ns_lookup wsd_soap12_uri = "s" := by
  decide

theorem xml_ns_lookup_swap_uri (u : String) :
    xml_ns_lookup (wsd_soap_swap_uri u) = xml_ns_lookup u := by
  unfold wsd_soap_swap_uri
  split_ifs with h1 h2
  · rw [h1, xml_ns_lookup_soap11, xml_ns_lookup_soap12]
  · rw [h2, xml_ns_lookup_soap11, xml_ns_lookup_soap12]
  · rfl

theorem xml_rd_normalize_swap : ∀ ns : RForest,
    xml_rd_normalize (wsd_soap_swap ns) = xml_rd_normalize ns
  | .nil => rfl
  | .cons (.mk u l v ch) rest => by
    simp only [wsd_soap_swap, xml_rd_normalize, xml_rd_normalize_swap ch,
      xml_rd_normalize_swap rest, xml_ns_lookup_swap_uri u]

/-- Claim C7: namespace tolerance — two documents identical except that
one uses the SOAP 1.1 envelope namespace URI where the other uses the
SOAP 1.2 one decode to identical results, because both URIs normalize to
the prefix "s" and the parsers compare only normalized prefixed paths. -/
theorem wsd_c7_namespace_tolerance (caps : devcaps) (ns : RForest) :
    wsd_devcaps_parse_raw caps (wsd_soap_swap ns) =
      wsd_devcaps_parse_raw caps ns := by
  unfold wsd_devcaps_parse_raw
  rw [xml_rd_normalize_swap]

/-! ## Lemmas about the source sub-parser walk -/

theorem wsd_src_step_bound_none (st st' : wsd_src_state) (p v : String)
    (k : wsd_src_key) (hk : wsd_bound_key k = true)
    (h : wsd_src_step st p v = (none, st')) :
    (wsd_src_classify p = k →
      ∃ n, xml_rd_node_value_uint v = .ok n ∧
        wsd_src_bound st' k =
          if wsd_src_bound st k < 0 then (n : Int) else wsd_src_bound st k) ∧
    (wsd_src_classify p ≠ k → wsd_src_bound st' k = wsd_src_bound st k) := by
  rcases hc : wsd_src_classify p with _ | _ | _ | _ | _ | _ | _ | _
  case xres =>
    rcases hu : xml_rd_node_value_uint v with e0 | n
    · simp only [wsd_src_step, hc, wsd_devcaps_parse_res, hu] at h
      simp at h
    · simp only [wsd_src_step, hc, wsd_devcaps_parse_res, hu] at h
      simp only [Prod.mk.injEq, true_and] at h
      subst h
      refine ⟨fun hkk => ?_, fun _ => by cases k <;> simp [wsd_src_bound]⟩
      subst hkk
      simp [wsd_bound_key] at hk
  case yres =>
    rcases hu : xml_rd_node_value_uint v with e0 | n
    · simp only [wsd_src_step, hc, wsd_devcaps_parse_res, hu] at h
      simp at h
    · simp only [wsd_src_step, hc, wsd_devcaps_parse_res, hu] at h
      simp only [Prod.mk.injEq, true_and] at h
      subst h
      refine ⟨fun hkk => ?_, fun _ => by cases k <;> simp [wsd_src_bound]⟩
      subst hkk
      simp [wsd_bound_key] at hk
  case color =>
    simp only [wsd_src_step, hc] at h
    simp only [Prod.mk.injEq, true_and] at h
    subst h
    refine ⟨fun hkk => ?_, fun _ => by cases k <;> simp [wsd_src_bound]⟩
    subst hkk
    simp [wsd_bound_key] at hk
  case other =>
    simp only [wsd_src_step, hc] at h
    simp only [Prod.mk.injEq, true_and] at h
    subst h
    refine ⟨fun hkk => ?_, fun _ => rfl⟩
    subst hkk
    simp [wsd_bound_key] at hk
  case minw =>
    rcases hu : xml_rd_node_value_uint v with e0 | n
    · simp only [wsd_src_step, hc, wsd_devcaps_parse_size, hu] at h
      simp at h
    · simp only [wsd_src_step, hc, wsd_devcaps_parse_size, hu] at h
      simp only [Prod.mk.injEq, true_and] at h
      subst h
      constructor
      · intro hkk
        subst hkk
        exact ⟨n, rfl, by simp [wsd_src_bound]⟩
      · intro hne
        cases k <;> simp_all [wsd_src_bound]
  case minh =>
    rcases hu : xml_rd_node_value_uint v with e0 | n
    · simp only [wsd_src_step, hc, wsd_devcaps_parse_size, hu] at h
      simp at h
    · simp only [wsd_src_step, hc, wsd_devcaps_parse_size, hu] at h
      simp only [Prod.mk.injEq, true_and] at h
      subst h
      constructor
      · intro hkk
        subst hkk
        exact ⟨n, rfl, by simp [wsd_src_bound]⟩
      · intro hne
        cases k <;> simp_all [wsd_src_bound]
  case maxw =>
    rcases hu : xml_rd_node_value_uint v with e0 | n
    · simp only [wsd_src_step, hc, wsd_devcaps_parse_size, hu] at h
      simp at h
    · simp only [wsd_src_step, hc, wsd_devcaps_parse_size, hu] at h
      simp only [Prod.mk.injEq, true_and] at h
      subst h
      constructor
      · intro hkk
        subst hkk
        exact ⟨n, rfl, by simp [wsd_src_bound]⟩
      · intro hne
        cases k <;> simp_all [wsd_src_bound]
  case maxh =>
    rcases hu : xml_rd_node_value_uint v with e0 | n
    · simp only [wsd_src_step, hc, wsd_devcaps_parse_size, hu] at h
      simp at h
    · simp only [wsd_src_step, hc, wsd_devcaps_parse_size, hu] at h
      simp only [Prod.mk.injEq, true_and] at h
      subst h
      constructor
      · intro hkk
        subst hkk
        exact ⟨n, rfl, by simp [wsd_src_bound]⟩
      · intro hne
        cases k <;> simp_all [wsd_src_bound]

theorem wsd_src_step_bound_error (st : wsd_src_state) (p v : String)
    (e : Err) (hb : wsd_bound_key (wsd_src_classify p) = true)
    (hbad : xml_rd_node_value_uint v = .error e) :
    wsd_src_step st p v = (some e, st) := by
  rcases hc : wsd_src_classify p with _ | _ | _ | _ | _ | _ | _ | _ <;>
    rw [hc] at hb
  case xres => simp [wsd_bound_key] at hb
  case yres => simp [wsd_bound_key] at hb
  case color => simp [wsd_bound_key] at hb
  case other => simp [wsd_bound_key] at hb
  case minw => simp [wsd_src_step, hc, wsd_devcaps_parse_size, hbad]
  case minh => simp [wsd_src_step, hc, wsd_devcaps_parse_size, hbad]
  case maxw => simp [wsd_src_step, hc, wsd_devcaps_parse_size, hbad]
  case maxh => simp [wsd_src_step, hc, wsd_devcaps_parse_size, hbad]

theorem wsd_src_walk_append (st : wsd_src_state)
    (l1 l2 : List (String × String)) :
    wsd_src_walk st (l1 ++ l2) =
      match wsd_src_walk st l1 with
      | (some e, st1) => (some e, st1)
      | (none, st1) => wsd_src_walk st1 l2 := by
  induction l1 generalizing st with
  | nil => simp [wsd_src_walk]
  | cons n rest ih =>
    simp only [List.cons_append, wsd_src_walk]
    rcases hs : wsd_src_step st n.1 n.2 with ⟨e, st1⟩
    cases e <;> simp [ih]

theorem wsd_src_walk_bound_persist (k : wsd_src_key)
    (hk : wsd_bound_key k = true) :
    ∀ (nodes : List (String × String)) (st st' : wsd_src_state),
      wsd_src_walk st nodes = (none, st') → 0 ≤ wsd_src_bound st k →
      wsd_src_bound st' k = wsd_src_bound st k
  | [] => by
    intro st st' h _
    simp [wsd_src_walk] at h
    rw [h]
  | n :: rest => by
    intro st st' h h0
    simp only [wsd_src_walk] at h
    rcases hs : wsd_src_step st n.1 n.2 with ⟨e, st1⟩
    rw [hs] at h
    cases e
    case some => simp at h
    case none =>
      replace h : wsd_src_walk st1 rest = (none, st') := h
      have hb1 : wsd_src_bound st1 k = wsd_src_bound st k := by
        by_cases hc : wsd_src_classify n.1 = k
        · obtain ⟨m, _, hif⟩ :=
            (wsd_src_step_bound_none st st1 n.1 n.2 k hk hs).1 hc
          rw [hif, if_neg (by omega)]
        · exact (wsd_src_step_bound_none st st1 n.1 n.2 k hk hs).2 hc
      rw [wsd_src_walk_bound_persist k hk rest st1 st' h (by omega), hb1]

theorem wsd_bound_vals_cons (k : wsd_src_key) (n : String × String)
    (rest : List (String × String)) :
    wsd_bound_vals k (n :: rest) =
      if wsd_src_classify n.1 = k then n.2 :: wsd_bound_vals k rest
      else wsd_bound_vals k rest := by
  unfold wsd_bound_vals
  rw [List.filterMap_cons]
  split_ifs <;> rfl

theorem wsd_src_walk_bound_first (k : wsd_src_key)
    (hk : wsd_bound_key k = true) :
    ∀ (nodes : List (String × String)) (st st' : wsd_src_state),
      wsd_src_walk st nodes = (none, st') → wsd_src_bound st k < 0 →
      (wsd_bound_vals k nodes = [] →
        wsd_src_bound st' k = wsd_src_bound st k) ∧
      (∀ (v : String) (vs : List String), wsd_bound_vals k nodes = v :: vs →
        ∃ n, xml_rd_node_value_uint v = .ok n ∧ wsd_src_bound st' k = (n : Int))
  | [] => by
    intro st st' h _
    simp [wsd_src_walk] at h
    constructor
    · intro _; rw [h]
    · intro v vs hv
      simp [wsd_bound_vals] at hv
  | n :: rest => by
    intro st st' h hneg
    simp only [wsd_src_walk] at h
    rcases hs : wsd_src_step st n.1 n.2 with ⟨e, st1⟩
    rw [hs] at h
    cases e
    case some => simp at h
    case none =>
      replace h : wsd_src_walk st1 rest = (none, st') := h
      by_cases hc : wsd_src_classify n.1 = k
      · obtain ⟨m, hm, hif⟩ :=
          (wsd_src_step_bound_none st st1 n.1 n.2 k hk hs).1 hc
        rw [if_pos hneg] at hif
        have hper := wsd_src_walk_bound_persist k hk rest st1 st' h (by omega)
        constructor
        · intro hnil
          rw [wsd_bound_vals_cons, if_pos hc] at hnil
          exact absurd hnil (List.cons_ne_nil _ _)
        · intro v vs hv
          rw [wsd_bound_vals_cons, if_pos hc] at hv
          obtain ⟨hv1, -⟩ := List.cons.injEq .. ▸ hv
          exact ⟨m, hv1 ▸ hm, by rw [hper, hif]⟩
      · have hb1 := (wsd_src_step_bound_none st st1 n.1 n.2 k hk hs).2 hc
        have ih := wsd_src_walk_bound_first k hk rest st1 st' h (by omega)
        constructor
        · intro hnil
          rw [wsd_bound_vals_cons, if_neg hc] at hnil
          rw [ih.1 hnil, hb1]
        · intro v vs hv
          rw [wsd_bound_vals_cons, if_neg hc] at hv
          exact ih.2 v vs hv

/-! ## Claims about the source sub-parser -/

/-- Claim C4: resolution reconciliation — after a successful source walk,
the X and Y resolution lists are each sorted ascending and de-duplicated,
and the source's discrete resolution set is exactly their intersection. -/
theorem wsd_c4_resolution_reconciliation (nodes : List (String × String))
    (st : wsd_src_state)
    (_h : wsd_src_walk wsd_src_state_init nodes = (none, st)) :
    (sane_word_array_sort st.x_res).Sorted (· < ·) ∧
    (sane_word_array_sort st.x_res).Nodup ∧
    (sane_word_array_sort st.y_res).Sorted (· < ·) ∧
    (sane_word_array_sort st.y_res).Nodup ∧
    (wsd_src_resolutions st).Sorted (· < ·) ∧
    (wsd_src_resolutions st).Nodup ∧
    (∀ a, a ∈ wsd_src_resolutions st ↔ a ∈ st.x_res ∧ a ∈ st.y_res) := by
  have hx := sorted_sane_word_array_sort st.x_res
  have hy := sorted_sane_word_array_sort st.y_res
  have hr : (wsd_src_resolutions st).Sorted (· < ·) :=
    sorted_sane_word_array_intersect_sorted _ _ hx
  refine ⟨hx, nodup_of_sorted_lt hx, hy, nodup_of_sorted_lt hy, hr,
    nodup_of_sorted_lt hr, ?_⟩
  intro a
  unfold wsd_src_resolutions
  rw [mem_sane_word_array_intersect_sorted, mem_sane_word_array_sort,
    mem_sane_word_array_sort]

/-- Witness for claim C4 at the spec's example: X resolutions
{300, 600, 1200} and Y resolutions {600, 1200} reconcile to the sorted
discrete set {600, 1200}. -/
theorem wsd_c4_witness :
    (wsd_src_resolutions (wsd_src_walk wsd_src_state_init wsd_c4_nodes).2).Sorted
        (· < ·) ∧
    wsd_src_resolutions (wsd_src_walk wsd_src_state_init wsd_c4_nodes).2 =
      [600, 1200] :=
  ⟨(wsd_c4_resolution_reconciliation wsd_c4_nodes
      (wsd_src_walk wsd_src_state_init wsd_c4_nodes).2 (by decide)).2.2.2.2.1,
   by decide⟩

/-- Claim C5: a source whose X-axis and Y-axis resolution lists are
disjoint fails with the "no resolutions defined" error, and the targeted
slot is left exactly as it was (the new record is not committed). -/
theorem wsd_c5_disjoint_resolutions (caps : devcaps) (src_id : OPT_SOURCE)
    (nodes : List (String × String)) (st : wsd_src_state)
    (h : wsd_src_walk wsd_src_state_init nodes = (none, st))
    (hd : ∀ a ∈ st.x_res, a ∉ st.y_res) :
    wsd_devcaps_parse_source caps nodes src_id =
      (some "no resolutions defined", caps) := by
  have hres : wsd_src_resolutions st = [] := by
    rw [List.eq_nil_iff_forall_not_mem]
    intro a ha
    unfold wsd_src_resolutions at ha
    rw [mem_sane_word_array_intersect_sorted, mem_sane_word_array_sort,
      mem_sane_word_array_sort] at ha
    exact hd a ha.1 ha.2
  unfold wsd_devcaps_parse_source
  rw [h]
  simp [wsd_src_check, hres]

/-- Witness for claim C5: X resolutions {300} and Y resolutions {600} are
disjoint, so the source parse fails with "no resolutions defined" and the
capabilities are unchanged. -/
theorem wsd_c5_witness :
    wsd_devcaps_parse_source devcaps_empty wsd_c5_nodes
        OPT_SOURCE.ADF_SIMPLEX =
      (some "no resolutions defined", devcaps_empty) :=
  wsd_c5_disjoint_resolutions devcaps_empty OPT_SOURCE.ADF_SIMPLEX
    wsd_c5_nodes (wsd_src_walk wsd_src_state_init wsd_c5_nodes).2
    (by decide) (by decide)

/-- Claim C6: first-bound-wins — after a successful source walk, each of
the four bound fields holds the parsed value of the FIRST occurrence of
that bound in the subtree; later occurrences do not overwrite it. -/
theorem wsd_c6_first_bound_wins (k : wsd_src_key)
    (hk : wsd_bound_key k = true) (nodes : List (String × String))
    (st' : wsd_src_state) (v : String) (vs : List String)
    (h : wsd_src_walk wsd_src_state_init nodes = (none, st'))
    (hv : wsd_bound_vals k nodes = v :: vs) :
    ∃ n, xml_rd_node_value_uint v = .ok n ∧ wsd_src_bound st' k = (n : Int) := by
  have hneg : wsd_src_bound wsd_src_state_init k < 0 := by
    cases k <;> simp_all [wsd_src_bound, wsd_src_state_init, wsd_bound_key]
  exact (wsd_src_walk_bound_first k hk nodes wsd_src_state_init st' h
    hneg).2 v vs hv

/-- Witness for claim C6: a subtree repeating the platen minimum width
with values 100 then 200 retains 100. -/
theorem wsd_c6_witness :
    (wsd_src_walk wsd_src_state_init wsd_c6_nodes).2.min_wid = 100 := by
  obtain ⟨n, hn, hb⟩ := wsd_c6_first_bound_wins .minw (by decide)
    wsd_c6_nodes (wsd_src_walk wsd_src_state_init wsd_c6_nodes).2
    "100" ["200"] (by decide) (by decide)
  have h100 : xml_rd_node_value_uint "100" = .ok 100 := rfl
  rw [h100] at hn
  injection hn with hn'
  rw [← hn'] at hb
  exact hb

/-- Claim C9: a bound leaf whose value fails unsigned-integer parsing
aborts the source parse immediately with that parse error — even when an
earlier occurrence already recorded a valid value — and the capabilities
are left unchanged. -/
theorem wsd_c9_parse_error_precedence (caps : devcaps)
    (src_id : OPT_SOURCE) (pre post : List (String × String))
    (p v : String) (st : wsd_src_state) (e : Err)
    (hb : wsd_bound_key (wsd_src_classify p) = true)
    (hpre : wsd_src_walk wsd_src_state_init pre = (none, st))
    (hbad : xml_rd_node_value_uint v = .error e) :
    wsd_devcaps_parse_source caps (pre ++ (p, v) :: post) src_id =
      (some e, caps) := by
  have hstep : wsd_src_step st p v = (some e, st) :=
    wsd_src_step_bound_error st p v e hb hbad
  have hw : wsd_src_walk wsd_src_state_init (pre ++ (p, v) :: post) =
      (some e, st) := by
    rw [wsd_src_walk_append, hpre]
    simp only [wsd_src_walk, hstep]
  unfold wsd_devcaps_parse_source
  rw [hw]

/-- Witness for claim C9: a valid minimum width 100 followed by the
unparseable value "12x3" for the same bound makes the source parse fail
with the parse error, leaving the capabilities unchanged. -/
theorem wsd_c9_witness :
    wsd_devcaps_parse_source devcaps_empty wsd_c9_nodes OPT_SOURCE.PLATEN =
      (some "invalid unsigned integer value: 12x3", devcaps_empty) :=
  wsd_c9_parse_error_precedence devcaps_empty OPT_SOURCE.PLATEN wsd_c9_pre
    [] "/scan:PlatenMinimumSize/scan:Width" "12x3"
    (wsd_src_walk wsd_src_state_init wsd_c9_pre).2
    "invalid unsigned integer value: 12x3" (by decide) (by decide) rfl

/-! ## Claim C10: Platen and ADF path forms are interchangeable -/

theorem wsd_swap_nodes_cons (n : String × String)
    (rest : List (String × String)) :
    wsd_swap_nodes (n :: rest) =
      (wsd_path_swap n.1, n.2) :: wsd_swap_nodes rest := rfl

theorem wsd_src_classify_swap (p : String) :
    wsd_src_classify (wsd_path_swap p) = wsd_src_classify p := by
  unfold wsd_path_swap
  by_cases h1 : p = "/scan:PlatenResolutions/scan:Widths/scan:Width"
  · rw [if_pos h1, h1]
    decide
  · rw [if_neg h1]
    by_cases h2 : p = "/scan:ADFResolutions/scan:Widths/scan:Width"
    · rw [if_pos h2, h2]
      decide
    · rw [if_neg h2]
      by_cases h3 : p = "/scan:PlatenResolutions/scan:Heights/scan:Height"
      · rw [if_pos h3, h3]
        decide
      · rw [if_neg h3]
        by_cases h4 : p = "/scan:ADFResolutions/scan:Heights/scan:Height"
        · rw [if_pos h4, h4]
          decide
        · rw [if_neg h4]
          by_cases h5 : p = "/scan:PlatenMinimumSize/scan:Width"
          · rw [if_pos h5, h5]
            decide
          · rw [if_neg h5]
            by_cases h6 : p = "/scan:ADFMinimumSize/scan:Width"
            · rw [if_pos h6, h6]
              decide
            · rw [if_neg h6]
              by_cases h7 : p = "/scan:PlatenMinimumSize/scan:Height"
              · rw [if_pos h7, h7]
                decide
              · rw [if_neg h7]
                by_cases h8 : p = "/scan:ADFMinimumSize/scan:Height"
                · rw [if_pos h8, h8]
                  decide
                · rw [if_neg h8]
                  by_cases h9 : p = "/scan:PlatenMaximumSize/scan:Width"
                  · rw [if_pos h9, h9]
                    decide
                  · rw [if_neg h9]
                    by_cases h10 : p = "/scan:ADFMaximumSize/scan:Width"
                    · rw [if_pos h10, h10]
                      decide
                    · rw [if_neg h10]
                      by_cases h11 : p = "/scan:PlatenMaximumSize/scan:Height"
                      · rw [if_pos h11, h11]
                        decide
                      · rw [if_neg h11]
                        by_cases h12 : p = "/scan:ADFMaximumSize/scan:Height"
                        · rw [if_pos h12, h12]
                          decide
                        · rw [if_neg h12]
                          by_cases h13 : p = "/scan:PlatenColor/scan:ColorEntry"
                          · rw [if_pos h13, h13]
                            decide
                          · rw [if_neg h13]
                            by_cases h14 : p = "/scan:ADFColor/scan:ColorEntry"
                            · rw [if_pos h14, h14]
                              decide
                            · rw [if_neg h14]

theorem wsd_src_step_swap (st : wsd_src_state) (p v : String) :
    wsd_src_step st (wsd_path_swap p) v = wsd_src_step st p v := by
  unfold wsd_src_step
  rw [wsd_src_classify_swap]

theorem wsd_src_walk_swap :
    ∀ (nodes : List (String × String)) (st : wsd_src_state),
      wsd_src_walk st (wsd_swap_nodes nodes) = wsd_src_walk st nodes
  | [] => by intro st; rfl
  | n :: rest => by
    intro st
    rw [wsd_swap_nodes_cons]
    simp only [wsd_src_walk]
    rw [wsd_src_step_swap]
    rcases hs : wsd_src_step st n.1 n.2 with ⟨e, st1⟩
    cases e
    · exact wsd_src_walk_swap rest st1
    · rfl

/-- Claim C10: the source sub-parser accepts Platen-prefixed and
ADF-prefixed element names interchangeably, regardless of which slot it
targets: exchanging the two path forms throughout a subtree leaves the
parse result unchanged for every target slot. -/
theorem wsd_c10_platen_adf_interchangeable (caps : devcaps)
    (nodes : List (String × String)) (src_id : OPT_SOURCE) :
    wsd_devcaps_parse_source caps (wsd_swap_nodes nodes) src_id =
      wsd_devcaps_parse_source caps nodes src_id := by
  unfold wsd_devcaps_parse_source
  rw [wsd_src_walk_swap]

/-! ## Bitmask lemmas -/

theorem land_land_self (a b : Nat) : a &&& b &&& b = a &&& b := by
  apply Nat.eq_of_testBit_eq
  intro i
  simp [Nat.testBit_land, Bool.and_assoc]

theorem lor_land_ne_zero (a b s : Nat) (h : a &&& s ≠ 0) :
    (a ||| b) &&& s ≠ 0 := by
  intro h0
  apply h
  apply Nat.eq_of_testBit_eq
  intro i
  have hb := congrArg (fun n => n.testBit i) h0
  simp only [Nat.testBit_land, Nat.testBit_lor, Nat.zero_testBit] at hb ⊢
  cases hx : Nat.testBit a i <;> cases hs : Nat.testBit s i <;> simp_all

/-! ## Invariant preservation through the pipeline -/

theorem devcaps_src_setSrc (c : devcaps) (i j : OPT_SOURCE)
    (v : devcaps_source) :
    (c.setSrc i v).src j = if j = i then some v else c.src j := by
  cases i <;> cases j <;> simp [devcaps.setSrc, devcaps.src]

theorem devcaps_empty_ok : devcaps_ok devcaps_empty := by
  intro s rec hs
  cases s <;> simp [devcaps.src, devcaps_empty] at hs

theorem wsd_src_record_ok (st : wsd_src_state)
    (h : wsd_src_check st = none) :
    devcaps_source_ok (wsd_src_record st) := by
  unfold wsd_src_check at h
  split_ifs at h with h1 h2 h3 h4 h5 h6 h7 h8
  refine ⟨h1, ?_, ?_, ?_, ?_, ?_, ?_, ?_⟩
  · show st.colormodes &&& OPT_COLORMODES_SUPPORTED &&&
      OPT_COLORMODES_SUPPORTED ≠ 0
    rw [land_land_self]
    exact h2
  · show (0 : Int) ≤ st.min_wid
    omega
  · show (0 : Int) ≤ st.min_hei
    omega
  · show (0 : Int) ≤ st.max_wid
    omega
  · show (0 : Int) ≤ st.max_hei
    omega
  · show st.min_wid ≤ st.max_wid
    omega
  · show st.min_hei ≤ st.max_hei
    omega

theorem wsd_devcaps_parse_source_cases (caps : devcaps)
    (nodes : List (String × String)) (src_id : OPT_SOURCE) :
    (wsd_devcaps_parse_source caps nodes src_id).2 = caps ∨
    ∃ st, wsd_src_walk wsd_src_state_init nodes = (none, st) ∧
      wsd_src_check st = none ∧
      (wsd_devcaps_parse_source caps nodes src_id).2 =
        caps.setSrc src_id (wsd_src_record st) := by
  unfold wsd_devcaps_parse_source
  rcases hw : wsd_src_walk wsd_src_state_init nodes with ⟨e, st⟩
  cases e
  · rcases hc : wsd_src_check st with _ | e2
    · by_cases hslot : caps.src src_id = none
      · right
        refine ⟨st, ?_, hc, ?_⟩
        · first
          | exact hw
          | rfl
        · simp [hw, hc, hslot]
      · left
        simp [hw, hc, hslot]
    · left
      simp [hw, hc]
  · left
    simp [hw]

theorem wsd_devcaps_parse_source_pres (caps : devcaps)
    (nodes : List (String × String)) (src_id : OPT_SOURCE)
    (h : devcaps_ok caps) :
    devcaps_ok (wsd_devcaps_parse_source caps nodes src_id).2 := by
  rcases wsd_devcaps_parse_source_cases caps nodes src_id with
    hcase | ⟨st, _, hc, hcase⟩
  · rw [hcase]
    exact h
  · rw [hcase]
    intro s rec hs
    rw [devcaps_src_setSrc] at hs
    split_ifs at hs with hji
    · cases hs
      exact wsd_src_record_ok st hc
    · exact h s rec hs

theorem wsd_devcaps_parse_description_src
    (nodes : List (String × String)) :
    ∀ (caps : devcaps) (s : OPT_SOURCE),
      (wsd_devcaps_parse_description caps nodes).src s = caps.src s := by
  induction nodes with
  | nil => intro caps s; rfl
  | cons n rest ih =>
    intro caps s
    show (wsd_devcaps_parse_description
      (if n.1 = "/scan:ScannerName" then
        if caps.model = none then { caps with model := some n.2 } else caps
      else caps) rest).src s = caps.src s
    rw [ih]
    by_cases hn : n.1 = "/scan:ScannerName"
    · rw [if_pos hn]
      by_cases hm : caps.model = none
      · rw [if_pos hm]
        cases s <;> rfl
      · rw [if_neg hm]
    · rw [if_neg hn]

theorem wsd_devcaps_parse_description_pres (caps : devcaps)
    (nodes : List (String × String)) (h : devcaps_ok caps) :
    devcaps_ok (wsd_devcaps_parse_description caps nodes) := by
  intro s rec hs
  rw [wsd_devcaps_parse_description_src] at hs
  exact h s rec hs

theorem wsd_conf_walk_pres :
    ∀ (ns : XForest) (caps : devcaps) (st : wsd_conf_state) (pfx : String),
      devcaps_ok caps → devcaps_ok (wsd_conf_walk caps st pfx ns).2.1
  | .nil => by
    intro caps st pfx h
    exact h
  | .cons (.mk nm v ch) rest => by
    intro caps st pfx h
    simp only [wsd_conf_walk]
    split_ifs with h1 h2 h3 h4 h5
    · exact wsd_conf_walk_pres rest _ _ _ h
    · rcases hp : wsd_devcaps_parse_source caps (xnode_list "" ch)
          OPT_SOURCE.PLATEN with ⟨e, c⟩
      have hc : devcaps_ok c := by
        have hh := wsd_devcaps_parse_source_pres caps (xnode_list "" ch)
          OPT_SOURCE.PLATEN h
        rwa [hp] at hh
      cases e
      · exact wsd_conf_walk_pres rest c st pfx hc
      · exact hc
    · rcases hp : wsd_devcaps_parse_source caps (xnode_list "" ch)
          OPT_SOURCE.ADF_SIMPLEX with ⟨e, c⟩
      have hc : devcaps_ok c := by
        have hh := wsd_devcaps_parse_source_pres caps (xnode_list "" ch)
          OPT_SOURCE.ADF_SIMPLEX h
        rwa [hp] at hh
      cases e
      · exact wsd_conf_walk_pres rest c _ pfx hc
      · exact hc
    · rcases hp : wsd_devcaps_parse_source caps (xnode_list "" ch)
          OPT_SOURCE.ADF_DUPLEX with ⟨e, c⟩
      have hc : devcaps_ok c := by
        have hh := wsd_devcaps_parse_source_pres caps (xnode_list "" ch)
          OPT_SOURCE.ADF_DUPLEX h
        rwa [hp] at hh
      cases e
      · exact wsd_conf_walk_pres rest c st pfx hc
      · exact hc
    · rcases hn : wsd_conf_walk caps
          { st with duplex := v = "1" || v = "true" }
          (pfx ++ "/" ++ nm) ch with ⟨e, c, s⟩
      have hc : devcaps_ok c := by
        have hh := wsd_conf_walk_pres ch caps
          { st with duplex := v = "1" || v = "true" } (pfx ++ "/" ++ nm) h
        rwa [hn] at hh
      cases e
      · exact wsd_conf_walk_pres rest c s pfx hc
      · exact hc
    · rcases hn : wsd_conf_walk caps st (pfx ++ "/" ++ nm) ch with ⟨e, c, s⟩
      have hc : devcaps_ok c := by
        have hh := wsd_conf_walk_pres ch caps st (pfx ++ "/" ++ nm) h
        rwa [hn] at hh
      cases e
      · exact wsd_conf_walk_pres rest c s pfx hc
      · exact hc

theorem devcaps_source_adjust_pres (formats : Nat) (s : devcaps_source)
    (h : devcaps_source_ok s) :
    devcaps_source_ok (devcaps_source_adjust formats s) := h

theorem wsd_adjust_sources_src (caps : devcaps) (formats : Nat)
    (s : OPT_SOURCE) :
    (wsd_adjust_sources caps formats).src s =
      (caps.src s).map (devcaps_source_adjust formats) := by
  cases s <;> rfl

theorem wsd_adjust_sources_pres (caps : devcaps) (formats : Nat)
    (h : devcaps_ok caps) : devcaps_ok (wsd_adjust_sources caps formats) := by
  intro s rec hs
  rw [wsd_adjust_sources_src] at hs
  obtain ⟨a, ha, rfl⟩ := Option.map_eq_some'.mp hs
  exact devcaps_source_adjust_pres formats a (h s a ha)

theorem devcaps_source_merge_pres (a b : devcaps_source)
    (ha : devcaps_source_ok a) (hb : devcaps_source_ok b) :
    devcaps_source_ok (devcaps_source_merge a b) := by
  obtain ⟨ha1, ha2, ha3, ha4, ha5, ha6, ha7, ha8⟩ := ha
  obtain ⟨hb1, hb2, hb3, hb4, hb5, hb6, hb7, hb8⟩ := hb
  refine ⟨?_, ?_, ?_, ?_, ?_, ?_, ?_, ?_⟩
  · obtain ⟨x, hx⟩ := List.exists_mem_of_ne_nil _ ha1
    have hmem : x ∈ sane_word_array_sort (a.resolutions ++ b.resolutions) := by
      rw [mem_sane_word_array_sort]
      exact List.mem_append_left _ hx
    exact List.ne_nil_of_mem hmem
  · exact lor_land_ne_zero _ _ _ ha2
  · exact le_min ha3 hb3
  · exact le_min ha4 hb4
  · exact le_trans ha5 (le_max_left _ _)
  · exact le_trans ha6 (le_max_left _ _)
  · exact le_trans (min_le_left _ _) (le_trans ha7 (le_max_left _ _))
  · exact le_trans (min_le_left _ _) (le_trans ha8 (le_max_left _ _))

theorem wsd_adjust_duplex_pres (adf duplex : Bool) (caps : devcaps)
    (h : devcaps_ok caps) :
    devcaps_ok (wsd_adjust_duplex adf duplex caps) := by
  unfold wsd_adjust_duplex
  split_ifs with hd
  · rcases hbk : caps.src_adf_duplex with _ | b
    · intro s rec hs
      cases s
      · exact h .PLATEN rec hs
      · exact h .ADF_SIMPLEX rec hs
      · simp only [devcaps.src] at hs
        obtain ⟨f, hf, rfl⟩ := Option.map_eq_some'.mp hs
        exact h .ADF_SIMPLEX f hf
    · intro s rec hs
      cases s
      · exact h .PLATEN rec hs
      · exact h .ADF_SIMPLEX rec hs
      · simp only [devcaps.src] at hs
        obtain ⟨f, hf, rfl⟩ := Option.map_eq_some'.mp hs
        exact devcaps_source_merge_pres f b (h .ADF_SIMPLEX f hf)
          (h .ADF_DUPLEX b hbk)
  · intro s rec hs
    cases s
    · exact h .PLATEN rec hs
    · exact h .ADF_SIMPLEX rec hs
    · simp [devcaps.src] at hs

theorem wsd_devcaps_parse_configuration_pres (caps : devcaps) (ns : XForest)
    (h : devcaps_ok caps) :
    devcaps_ok (wsd_devcaps_parse_configuration caps ns).2 := by
  unfold wsd_devcaps_parse_configuration
  rcases hw : wsd_conf_walk caps wsd_conf_state_init "" ns with ⟨e, c, st⟩
  have hc : devcaps_ok c := by
    have hh := wsd_conf_walk_pres ns caps wsd_conf_state_init "" h
    rwa [hw] at hh
  cases e
  case some e => exact hc
  case none =>
    have h1 := wsd_adjust_sources_pres c st.formats hc
    have h2 := wsd_adjust_duplex_pres st.adf st.duplex _ h1
    intro s rec hs
    refine h2 s rec ?_
    cases s <;> exact hs

theorem wsd_top_walk_pres :
    ∀ (ns : XForest) (caps : devcaps) (pfx : String),
      devcaps_ok caps → devcaps_ok (wsd_top_walk caps pfx ns).2
  | .nil => by
    intro caps pfx h
    exact h
  | .cons (.mk nm _v ch) rest => by
    intro caps pfx h
    simp only [wsd_top_walk]
    generalize (if pfx = "" then nm else pfx ++ "/" ++ nm) = p
    split_ifs with h1 h2
    · exact wsd_top_walk_pres rest _ pfx
        (wsd_devcaps_parse_description_pres caps (xnode_list "" ch) h)
    · rcases hp : wsd_devcaps_parse_configuration caps ch with ⟨e, c⟩
      have hc : devcaps_ok c := by
        have hh := wsd_devcaps_parse_configuration_pres caps ch h
        rwa [hp] at hh
      cases e
      · exact wsd_top_walk_pres rest c pfx hc
      · exact hc
    · rcases hn : wsd_top_walk caps p ch with ⟨e, c⟩
      have hc : devcaps_ok c := by
        have hh := wsd_top_walk_pres ch caps p h
        rwa [hn] at hh
      cases e
      · exact wsd_top_walk_pres rest c pfx hc
      · exact hc

/-! ## Claims about the whole pipeline -/

/-- Claim C1: for every input whose decoding succeeds, every populated
source slot of the returned Device Capabilities satisfies the four Source
invariants: non-empty resolution set, non-empty color-mode set after
intersection with the globally supported set, all four pixel bounds
defined (non-negative), and minimum width/height not above maximum
width/height. -/
theorem wsd_c1_invariants (input : Except Err XForest) (caps' : devcaps)
    (h : wsd_devcaps_parse devcaps_empty input = (none, caps'))
    (s : OPT_SOURCE) (rec : devcaps_source)
    (hs : caps'.src s = some rec) : devcaps_source_ok rec := by
  unfold wsd_devcaps_parse at h
  cases input with
  | error e => simp at h
  | ok ns =>
    replace h : (match wsd_top_walk devcaps_empty "" ns with
      | (some e, c) => (some e, devcaps_reset c)
      | (none, c) => (none, c)) = (none, caps') := h
    rcases hw : wsd_top_walk devcaps_empty "" ns with ⟨e, c⟩
    rw [hw] at h
    cases e
    · simp only [Prod.mk.injEq, true_and] at h
      subst h
      have hh := wsd_top_walk_pres ns devcaps_empty "" devcaps_empty_ok
      rw [hw] at hh
      exact hh s rec hs
    · simp at h

/-- Witness for claim C1: decoding a well-formed document with a valid
platen source succeeds, and the platen record satisfies the Source
invariants. -/
theorem wsd_c1_witness :
    devcaps_source_ok
      (((wsd_devcaps_parse devcaps_empty (.ok wsd_doc_valid)).2.src
        OPT_SOURCE.PLATEN).getD devcaps_source_new) :=
  wsd_c1_invariants (.ok wsd_doc_valid)
    (wsd_devcaps_parse devcaps_empty (.ok wsd_doc_valid)).2 (by decide)
    OPT_SOURCE.PLATEN _ (by decide)

/-- Claim C2: whenever decoding returns an error — an XML failure, a
sub-parser error or "no sources detected" — the in-progress Device
Capabilities is reset to empty, so the caller never observes partially
populated state. -/
theorem wsd_c2_error_resets (caps : devcaps) (input : Except Err XForest)
    (h : (wsd_devcaps_parse caps input).1 ≠ none) :
    (wsd_devcaps_parse caps input).2 = devcaps_empty := by
  unfold wsd_devcaps_parse at *
  cases input with
  | error e => rfl
  | ok ns =>
    replace h : (match wsd_top_walk caps "" ns with
      | (some e, c) => (some e, devcaps_reset c)
      | (none, c) => (none, c)).1 ≠ none := h
    show (match wsd_top_walk caps "" ns with
      | (some e, c) => (some e, devcaps_reset c)
      | (none, c) => (none, c)).2 = devcaps_empty
    rcases hw : wsd_top_walk caps "" ns with ⟨e, c⟩
    cases e
    · rw [hw] at h
      simp at h
    · rfl

/-- Witness for claim C2: an XML-reader failure makes the decoder return
the reader's error together with an empty capability model. -/
theorem wsd_c2_witness :
    (wsd_devcaps_parse devcaps_empty (Except.error "malformed XML")).2 =
      devcaps_empty :=
  wsd_c2_error_resets devcaps_empty (Except.error "malformed XML")
    (by decide)

/-- Claim C3 counterexample: a successfully decoded document whose duplex
flag is true and whose ADF-back subtree is present (its record is parsed
and committed during the walk) but with no ADF-front subtree: the final
capabilities carry NO ADF-duplex record at all, not the merge of ADF-front
and ADF-back that the claim requires. -/
theorem wsd_c3_counterexample :
    (wsd_devcaps_parse devcaps_empty (Except.ok wsd_doc_c3)).1 = none ∧
    (wsd_conf_walk devcaps_empty wsd_conf_state_init ""
      (XForest.ofList wsd_conf_c3_list)).2.2.duplex = true ∧
    ((wsd_conf_walk devcaps_empty wsd_conf_state_init ""
      (XForest.ofList wsd_conf_c3_list)).2.1.src_adf_duplex).isSome = true ∧
    (wsd_devcaps_parse devcaps_empty
      (Except.ok wsd_doc_c3)).2.src_adf_duplex = none :=
  ⟨by decide, by decide, by decide, by decide⟩

/-- Claim C3 (amended): the duplex derivation step discards the ADF-duplex
slot whenever the duplex flag is false OR no ADF-front subtree was seen;
when the flag is true and ADF-front was seen, the slot becomes a value
copy of ADF-front if it was empty, and the merge of ADF-front and ADF-back
otherwise — the merged resolution set being the union of both inputs. -/
theorem wsd_c3_amended_duplex_derivation (adf duplex : Bool)
    (caps : devcaps) :
    ((duplex = false ∨ adf = false) →
      (wsd_adjust_duplex adf duplex caps).src_adf_duplex = none) ∧
    (adf = true → duplex = true → caps.src_adf_duplex = none →
      (wsd_adjust_duplex adf duplex caps).src_adf_duplex =
        caps.src_adf_simplex.map devcaps_source_clone) ∧
    (∀ f b, adf = true → duplex = true → caps.src_adf_simplex = some f →
      caps.src_adf_duplex = some b →
      (wsd_adjust_duplex adf duplex caps).src_adf_duplex =
        some (devcaps_source_merge f b) ∧
      (∀ r, r ∈ (devcaps_source_merge f b).resolutions ↔
        r ∈ f.resolutions ∨ r ∈ b.resolutions)) := by
  refine ⟨?_, ?_, ?_⟩
  · rintro (rfl | rfl) <;> simp [wsd_adjust_duplex]
  · rintro rfl rfl hd
    simp [wsd_adjust_duplex, hd]
  · rintro f b rfl rfl hf hd
    constructor
    · simp [wsd_adjust_duplex, hd, hf]
    · intro r
      show r ∈ sane_word_array_sort (f.resolutions ++ b.resolutions) ↔ _
      rw [mem_sane_word_array_sort, List.mem_append]

/-- Witness for claim C3's amended theorem: with the duplex flag true, an
ADF-front record present and no ADF-back record, the ADF-duplex slot
becomes a value copy of the ADF-front record. -/
theorem wsd_c3_amended_witness :
    (wsd_adjust_duplex true true wsd_caps_front_only).src_adf_duplex =
      some devcaps_source_new := by
  have h := (wsd_c3_amended_duplex_derivation true true
    wsd_caps_front_only).2.1 rfl rfl rfl
  rw [h]
  rfl

/-- Claim C8 counterexample: a successfully parsed configuration whose
platen minimum width is 100 pixels still gets a physical-unit minimum of
exactly 0, although converting 100 pixels at the 1000 scale yields a
non-zero physical length — the physical minima are NOT derived from the
pixel minima. -/
theorem wsd_c8_counterexample :
    (wsd_devcaps_parse_configuration devcaps_empty
      (XForest.ofList wsd_conf_c8_list)).1 = none ∧
    ((wsd_devcaps_parse_configuration devcaps_empty
      (XForest.ofList wsd_conf_c8_list)).2.src_platen.map
        (fun s => (s.min_wid_px, s.win_x_min))) = some (100, 0) ∧
    math_px2mm_res 100 1000 ≠ 0 :=
  ⟨by decide, by decide, by decide⟩

/-- Claim C8 (amended): after the configuration walk's adjustment loop,
every populated source record has physical-unit minima equal to 0 and
physical-unit maxima derived from its maximum pixel width/height through
the pixel-to-physical conversion at the fixed unit scale 1000. -/
theorem wsd_c8_amended_window_bounds (caps : devcaps) (formats : Nat)
    (s : OPT_SOURCE) (rec : devcaps_source)
    (h : (wsd_adjust_sources caps formats).src s = some rec) :
    rec.win_x_min = 0 ∧ rec.win_y_min = 0 ∧
    rec.win_x_max = math_px2mm_res rec.max_wid_px 1000 ∧
    rec.win_y_max = math_px2mm_res rec.max_hei_px 1000 := by
  rw [wsd_adjust_sources_src] at h
  obtain ⟨a, _, rfl⟩ := Option.map_eq_some'.mp h
  exact ⟨rfl, rfl, rfl, rfl⟩

/-- Witness for claim C8's amended theorem at a concrete record with
pixel maxima 2550 and 3507. -/
theorem wsd_c8_amended_witness :
    (wsd_adjust_sources wsd_caps_platen_sample 0).src OPT_SOURCE.PLATEN =
      some wsd_c8w_rec ∧
    wsd_c8w_rec.win_x_min = 0 ∧ wsd_c8w_rec.win_y_min = 0 ∧
    wsd_c8w_rec.win_x_max = math_px2mm_res wsd_c8w_rec.max_wid_px 1000 ∧
    wsd_c8w_rec.win_y_max = math_px2mm_res wsd_c8w_rec.max_hei_px 1000 := by
  have h := wsd_c8_amended_window_bounds wsd_caps_platen_sample 0
    OPT_SOURCE.PLATEN wsd_c8w_rec (by decide)
  exact ⟨by decide, h.1, h.2.1, h.2.2.1, h.2.2.2⟩

end SaneAirscan
